import Mathlib

/-!
Verification of the credential-selection and request-dispatch layer of the
onesignal-mcp repository.

The embedding follows the monolithic implementation (`onesignal_server.py`):
the app-configuration registry (the module-level `app_configs` dictionary and
`current_app_key`, mutated through the `add_app`, `update_local_app_config`,
`remove_app` and `switch_app` tools), the endpoint classifier
`requires_org_api_key`, and the dispatcher `make_onesignal_request`.  Where the
modular implementation (`onesignal_refactored/config.py`) is the cited source
(registry removal, `requires_org_api_key`) the two versions agree up to the
noted details.

Python dictionaries are modelled as insertion-ordered association lists with
string keys; Python `None`-able strings are `Option String`, with Python
truthiness made explicit.  JSON-ish values appearing in request bodies, query
parameters and parsed response bodies are modelled by the inductive `PyVal`.
The dispatcher is split at the transport boundary: `make_onesignal_request_prepare`
performs every step up to (and including) choosing which `requests.<method>`
call would be issued, returning either a pre-flight error dictionary value
(in which case the Python code returns before any HTTP call is made) or the
fully assembled outbound request; `handle_response` maps the transport's
response to the returned dictionary, exactly as the code after the
`requests` call does.
-/

namespace OneSignal

/-- Association-list lookup, modelling Python `d[k]` / `k in d` / `d.get(k)`
on a string-keyed dict (first matching key wins; real dict states have
distinct keys). -/
def dictGet {α : Type} : List (String × α) → String → Option α
  | [], _ => none
  | (k', v) :: rest, k => if k' = k then some v else dictGet rest k

/-- Python `d[k] = v`: replace in place when the key exists (dict assignment
keeps insertion position), append otherwise. -/
def dictSet {α : Type} (l : List (String × α)) (k : String) (v : α) : List (String × α) :=
  if (dictGet l k).isSome then
    l.map (fun kv => if kv.1 = k then (k, v) else kv)
  else
    l ++ [(k, v)]

/-- Python `del d[k]`. -/
def dictDelete {α : Type} : List (String × α) → String → List (String × α)
  | [], _ => []
  | (k', v) :: rest, k => if k' = k then dictDelete rest k else (k', v) :: dictDelete rest k

/-- Python `d.keys()` as a list, in insertion order. -/
def dictKeys {α : Type} (l : List (String × α)) : List String :=
  l.map Prod.fst

/-- Apply `f` to the value stored under `k`, leaving keys and order unchanged
(models Python field mutation `d[k].field = x`). -/
def dictUpdate {α : Type} (l : List (String × α)) (k : String) (f : α → α) : List (String × α) :=
  l.map (fun kv => if kv.1 = k then (kv.1, f kv.2) else kv)

/-- Structural prefix test on lists (kernel-reducible). -/
def listIsPre {α : Type} [DecidableEq α] : List α → List α → Bool
  | [], _ => true
  | _ :: _, [] => false
  | a :: as, b :: bs => if a = b then listIsPre as bs else false

/-- Structural contiguous-sublist test on lists (kernel-reducible). -/
def listIsSub {α : Type} [DecidableEq α] : List α → List α → Bool
  | n, [] => n.isEmpty
  | n, x :: t => listIsPre n (x :: t) || listIsSub n t

/-- Python `s.startswith(p)`. -/
def strStartsWith (s p : String) : Bool := listIsPre p.toList s.toList

/-- Python `p in s` (substring containment). -/
def strContainsSub (s p : String) : Bool := listIsSub p.toList s.toList

/-- Python `s.endswith(p)`. -/
def strEndsWith (s p : String) : Bool := listIsPre p.toList.reverse s.toList.reverse

/-- Python truthiness of an `Optional[str]`: `None` and `""` are falsy. -/
def truthyOptStr : Option String → Bool
  | some s => s != ""
  | none => false

/-- Python `name or key` on an `Optional[str]` argument. -/
def pyOrElse (o : Option String) (d : String) : String :=
  match o with
  | some s => if s = "" then d else s
  | none => d

/-- JSON-ish Python values occurring in request bodies, query parameters and
parsed response bodies: strings, integers, lists and string-keyed dicts. -/
inductive PyVal : Type
  | pstr (s : String)
  | pint (n : Int)
  | plist (xs : List PyVal)
  | pdict (kvs : List (String × PyVal))
deriving Repr

/-- Python truthiness of a `PyVal`. -/
def pyTruthy : PyVal → Bool
  | .pstr s => s != ""
  | .pint n => n != 0
  | .plist xs => !xs.isEmpty
  | .pdict kvs => !kvs.isEmpty

mutual

/-- Python `repr` of a `PyVal` (string escaping inside reprs is not modelled;
no claim exercises strings needing escapes). -/
def pyRepr : PyVal → String
  | .pstr s => "'" ++ s ++ "'"
  | .pint n => toString n
  | .plist xs => "[" ++ String.intercalate ", " (pyReprList xs) ++ "]"
  | .pdict kvs => "\x7b" ++ String.intercalate ", " (pyReprKVs kvs) ++ "\x7d"

def pyReprList : List PyVal → List String
  | [] => []
  | x :: xs => pyRepr x :: pyReprList xs

def pyReprKVs : List (String × PyVal) → List String
  | [] => []
  | (k, v) :: kvs => ("'" ++ k ++ "': " ++ pyRepr v) :: pyReprKVs kvs

end

/-- Python `str()` of a `PyVal` as used by f-string interpolation:
a string renders as itself, every other value as its repr. -/
def pyStrFmt : PyVal → String
  | .pstr s => s
  | v => pyRepr v

/-- `AppConfig` from `onesignal_server.py` / `onesignal_refactored/config.py`:
one configured OneSignal application. -/
structure AppConfig : Type where
  app_id : String
  api_key : String
  name : String
deriving Repr, DecidableEq

/-- The registry state: the module-level `app_configs` dict together with
`current_app_key`. -/
structure Registry : Type where
  app_configs : List (String × AppConfig)
  current_app_key : Option String
deriving Repr, DecidableEq

/-- `requires_org_api_key` (identical logic in `onesignal_server.py` and
`onesignal_refactored/config.py`): endpoints that require the Organization
API key. -/
def org_level_endpoints : List String :=
  ["apps", "notifications/csv_export", "players/csv_export"]

/-- `requires_org_api_key(endpoint)`: true when the endpoint equals an
org-level endpoint or starts with one followed by `/`. -/
def requires_org_api_key (endpoint : String) : Bool :=
  org_level_endpoints.any fun ep => endpoint == ep || strStartsWith endpoint (ep ++ "/")

/-- Claim C1: the auth-scope classification is a pure function of the endpoint
string returning organization scope exactly when the endpoint equals one of
`apps`, `players/csv_export`, `notifications/csv_export` or starts with one of
them followed by `/`; in particular it returns organization scope for `apps`,
`apps/123`, `players/csv_export`, `notifications/csv_export/x` and per-app
scope for `notifications` and `templates/abc`. -/
theorem classify_auth_scope_exact :
    (∀ e : String, requires_org_api_key e = true ↔
      (e = "apps" ∨ e = "players/csv_export" ∨ e = "notifications/csv_export" ∨
       strStartsWith e "apps/" = true ∨ strStartsWith e "players/csv_export/" = true ∨
       strStartsWith e "notifications/csv_export/" = true)) ∧
    requires_org_api_key "apps" = true ∧
    requires_org_api_key "apps/123" = true ∧
    requires_org_api_key "players/csv_export" = true ∧
    requires_org_api_key "notifications/csv_export/x" = true ∧
    requires_org_api_key "notifications" = false ∧
    requires_org_api_key "templates/abc" = false := by
  refine ⟨?_, by decide, by decide, by decide, by decide, by decide, by decide⟩
  intro e
  have h1 : "apps" ++ "/" = "apps/" := rfl
  have h2 : "notifications/csv_export" ++ "/" = "notifications/csv_export/" := rfl
  have h3 : "players/csv_export" ++ "/" = "players/csv_export/" := rfl
  simp only [requires_org_api_key, org_level_endpoints, List.any_cons, List.any_nil,
    h1, h2, h3, Bool.or_eq_true, beq_iff_eq]
  tauto

/-- Witness for C1: the characterization applied at the concrete endpoint
`apps/123`. -/
theorem classify_auth_scope_exact_witness :
    requires_org_api_key "apps/123" = true :=
  (classify_auth_scope_exact.1 "apps/123").mpr (by decide)

/-! ### Registry operations

The `add_app` tool (`onesignal_server.py` lines 360-382, identical logic in
`onesignal_refactored/server.py`): parameter check, duplicate-key check,
`add_app_config` (dict assignment), and current-app assignment when the
registry holds exactly one profile afterwards.  The other operations follow
`remove_app` / `update_local_app_config` / `switch_app`, whose logic
coincides with `AppManager.remove_app` / `update_app` / `set_current_app`
in `onesignal_refactored/config.py`. -/

/-- Error string of the `add_app` tool when a parameter is missing. -/
def addMissingParamsMsg : String :=
  "Error: All parameters (key, app_id, api_key) are required."

/-- Error string of the `add_app` tool when the key already exists. -/
def addDuplicateKeyMsg (key : String) : String :=
  "Error: App key '" ++ key ++ "' already exists. Use a different key or update_app to modify it."

/-- The `add_app` tool: returns the user-facing message and the new registry
state. -/
def add_app (reg : Registry) (key app_id api_key : String) (name : Option String) :
    String × Registry :=
  if key = "" ∨ app_id = "" ∨ api_key = "" then
    (addMissingParamsMsg, reg)
  else if (dictGet reg.app_configs key).isSome then
    (addDuplicateKeyMsg key, reg)
  else
    let cfgs := dictSet reg.app_configs key ⟨app_id, api_key, pyOrElse name key⟩
    let cur := if cfgs.length = 1 then some key else reg.current_app_key
    ("Successfully added app '" ++ key ++ "' with name '" ++ pyOrElse name key ++ "'.",
     ⟨cfgs, cur⟩)

/-- `AppManager.update_app` / the `update_local_app_config` tool: update only
the truthy supplied fields of an existing profile; returns whether the key was
found. -/
def update_app (reg : Registry) (key : String) (app_id api_key name : Option String) :
    Bool × Registry :=
  if (dictGet reg.app_configs key).isNone then
    (false, reg)
  else
    let f := fun (cfg : AppConfig) =>
      let cfg := if truthyOptStr app_id then { cfg with app_id := app_id.getD "" } else cfg
      let cfg := if truthyOptStr api_key then { cfg with api_key := api_key.getD "" } else cfg
      if truthyOptStr name then { cfg with name := name.getD "" } else cfg
    (true, ⟨dictUpdate reg.app_configs key f, reg.current_app_key⟩)

/-- `AppManager.remove_app`: absent key returns `false`; removing the current
key reassigns `current_app_key` to `other_keys[0] if other_keys else None`. -/
def remove_app (reg : Registry) (key : String) : Bool × Registry :=
  if (dictGet reg.app_configs key).isNone then
    (false, reg)
  else
    let cur :=
      if reg.current_app_key = some key then
        ((dictKeys reg.app_configs).filter (fun k => k != key)).head?
      else reg.current_app_key
    (true, ⟨dictDelete reg.app_configs key, cur⟩)

/-- `AppManager.set_current_app` / the `switch_app` tool: switch only to a
present key. -/
def set_current_app (reg : Registry) (key : String) : Bool × Registry :=
  if (dictGet reg.app_configs key).isSome then
    (true, ⟨reg.app_configs, some key⟩)
  else
    (false, reg)

/-- `get_current_app` (`onesignal_server.py` lines 120-129): the current
profile, defensively re-checked against the dict. -/
def get_current_app (reg : Registry) : Option AppConfig :=
  if truthyOptStr reg.current_app_key then
    dictGet reg.app_configs (reg.current_app_key.getD "")
  else none

/-- One registry-mutating operation, for reasoning about operation
sequences. -/
inductive RegOp : Type
  | add (key app_id api_key : String) (name : Option String)
  | update (key : String) (app_id api_key name : Option String)
  | remove (key : String)
  | setCurrent (key : String)

/-- Apply one operation, discarding its user-facing result. -/
def applyOp (reg : Registry) : RegOp → Registry
  | .add k a p n => (add_app reg k a p n).2
  | .update k a p n => (update_app reg k a p n).2
  | .remove k => (remove_app reg k).2
  | .setCurrent k => (set_current_app reg k).2

/-- Apply a sequence of operations, left to right. -/
def applyOps (reg : Registry) (ops : List RegOp) : Registry :=
  ops.foldl applyOp reg

/-- The registry invariant: `current_app_key` is unset or names a present
profile. -/
def regInvariant (reg : Registry) : Prop :=
  ∀ k, reg.current_app_key = some k → (dictGet reg.app_configs k).isSome = true

/-! ### Dictionary lemmas -/

theorem dictGet_isSome_iff_mem {α : Type} (l : List (String × α)) (k : String) :
    (dictGet l k).isSome = true ↔ k ∈ dictKeys l := by
  induction l with
  | nil => simp [dictGet, dictKeys]
  | cons kv rest ih =>
    obtain ⟨k', v⟩ := kv
    by_cases h : k' = k
    · subst h
      simp [dictGet, dictKeys]
    · simp [dictGet, dictKeys, h, ih, dictKeys, Ne.symm h]

theorem dictGet_append_left {α : Type} (l l₂ : List (String × α)) (k : String)
    (h : (dictGet l k).isSome = true) : dictGet (l ++ l₂) k = dictGet l k := by
  induction l with
  | nil => simp [dictGet, Option.isSome] at h
  | cons kv rest ih =>
    obtain ⟨k', v⟩ := kv
    by_cases hk : k' = k
    · simp [dictGet, hk]
    · simp only [dictGet, hk, if_false, List.cons_append] at h ⊢
      simp [dictGet, hk] at h ⊢
      exact ih h

theorem dictGet_dictDelete_ne {α : Type} (l : List (String × α)) (key k : String)
    (h : k ≠ key) : dictGet (dictDelete l key) k = dictGet l k := by
  induction l with
  | nil => simp [dictDelete]
  | cons kv rest ih =>
    obtain ⟨k', v⟩ := kv
    by_cases hk : k' = key
    · subst hk
      have : k' ≠ k := fun hc => h hc.symm
      simp [dictDelete, dictGet, this, ih]
    · by_cases hkk : k' = k
      · subst hkk
        simp [dictDelete, dictGet, h]
      · simp [dictDelete, dictGet, hk, hkk, ih]

theorem dictKeys_dictDelete {α : Type} (l : List (String × α)) (key : String) :
    dictKeys (dictDelete l key) = (dictKeys l).filter (fun k => k != key) := by
  induction l with
  | nil => simp [dictDelete, dictKeys]
  | cons kv rest ih =>
    obtain ⟨k', v⟩ := kv
    by_cases hk : k' = key
    · subst hk
      simpa [dictDelete, dictKeys, List.filter_cons] using ih
    · simp only [dictDelete, dictKeys, List.map_cons, List.filter_cons, if_neg hk,
        bne_iff_ne, ne_eq, hk, not_false_eq_true, if_true, List.cons.injEq, true_and]
      simpa [dictKeys] using ih

theorem dictKeys_dictUpdate {α : Type} (l : List (String × α)) (key : String) (f : α → α) :
    dictKeys (dictUpdate l key f) = dictKeys l := by
  induction l with
  | nil => rfl
  | cons kv rest ih =>
    obtain ⟨k', v⟩ := kv
    by_cases hk : k' = key
    · simp [dictUpdate, dictKeys, hk] at ih ⊢
      exact ih
    · simp [dictUpdate, dictKeys, hk] at ih ⊢
      exact ih

theorem dictSet_absent {α : Type} (l : List (String × α)) (k : String) (v : α)
    (h : (dictGet l k).isSome = false) : dictSet l k v = l ++ [(k, v)] := by
  simp [dictSet, h]

theorem dictGet_append_absent {α : Type} (l l₂ : List (String × α)) (k : String)
    (h : (dictGet l k).isSome = false) : dictGet (l ++ l₂) k = dictGet l₂ k := by
  induction l with
  | nil => simp
  | cons kv rest ih =>
    obtain ⟨k', v⟩ := kv
    by_cases hk : k' = k
    · simp [dictGet, hk] at h
    · rw [List.cons_append]
      show dictGet ((k', v) :: (rest ++ l₂)) k = dictGet l₂ k
      rw [show dictGet ((k', v) :: (rest ++ l₂)) k = dictGet (rest ++ l₂) k by
        simp [dictGet, hk]]
      apply ih
      simpa [dictGet, hk] using h

theorem head?_mem {α : Type} {l : List α} {a : α} (h : l.head? = some a) : a ∈ l := by
  cases l with
  | nil => simp at h
  | cons x t =>
    simp only [List.head?_cons, Option.some.injEq] at h
    subst h
    exact List.mem_cons_self x t

/-! ### Invariant preservation, one lemma per operation -/

theorem invariant_append_case (l : List (String × AppConfig)) (cur : Option String)
    (k : String) (v : AppConfig)
    (h : ∀ k', cur = some k' → (dictGet l k').isSome = true)
    (habs : (dictGet l k).isSome = false) :
    regInvariant ⟨l ++ [(k, v)],
      if (l ++ [(k, v)]).length = 1 then some k else cur⟩ := by
  intro k' hk'
  simp only at hk'
  by_cases hlen : (l ++ [(k, v)]).length = 1
  · rw [if_pos hlen] at hk'
    injection hk' with hkk
    subst hkk
    have hnil : l = [] := by
      cases l with
      | nil => rfl
      | cons a t => simp [List.length_append] at hlen
    subst hnil
    simp [dictGet]
  · rw [if_neg hlen] at hk'
    have hs := h k' hk'
    show (dictGet (l ++ [(k, v)]) k').isSome = true
    rw [dictGet_append_left _ _ _ hs]
    exact hs

theorem invariant_add (reg : Registry) (k a p : String) (n : Option String)
    (h : regInvariant reg) : regInvariant (add_app reg k a p n).2 := by
  unfold add_app
  by_cases hp : k = "" ∨ a = "" ∨ p = ""
  · rw [if_pos hp]
    exact h
  · rw [if_neg hp]
    by_cases hdup : (dictGet reg.app_configs k).isSome = true
    · rw [if_pos hdup]
      exact h
    · rw [if_neg hdup]
      have habs : (dictGet reg.app_configs k).isSome = false := by
        simpa using hdup
      show regInvariant ⟨dictSet reg.app_configs k ⟨a, p, pyOrElse n k⟩,
        if (dictSet reg.app_configs k ⟨a, p, pyOrElse n k⟩).length = 1 then some k
        else reg.current_app_key⟩
      rw [dictSet_absent _ _ _ habs]
      exact invariant_append_case _ _ _ _ h habs

theorem invariant_dictUpdate (l : List (String × AppConfig)) (cur : Option String)
    (k : String) (f : AppConfig → AppConfig)
    (h : ∀ k', cur = some k' → (dictGet l k').isSome = true) :
    regInvariant ⟨dictUpdate l k f, cur⟩ := by
  intro k' hk'
  have hmem : k' ∈ dictKeys l := (dictGet_isSome_iff_mem _ _).mp (h k' hk')
  have : k' ∈ dictKeys (dictUpdate l k f) := by
    rw [dictKeys_dictUpdate]
    exact hmem
  exact (dictGet_isSome_iff_mem _ _).mpr this

theorem invariant_update (reg : Registry) (k : String) (a p n : Option String)
    (h : regInvariant reg) : regInvariant (update_app reg k a p n).2 := by
  unfold update_app
  by_cases habs : (dictGet reg.app_configs k).isNone = true
  · rw [if_pos habs]
    exact h
  · rw [if_neg habs]
    exact invariant_dictUpdate _ _ _ _ h

theorem invariant_remove (reg : Registry) (k : String)
    (h : regInvariant reg) : regInvariant (remove_app reg k).2 := by
  unfold remove_app
  by_cases habs : (dictGet reg.app_configs k).isNone = true
  · rw [if_pos habs]
    exact h
  · rw [if_neg habs]
    show regInvariant ⟨dictDelete reg.app_configs k,
      if reg.current_app_key = some k then
        ((dictKeys reg.app_configs).filter (fun x => x != k)).head?
      else reg.current_app_key⟩
    intro k' hk'
    simp only at hk'
    by_cases hcur : reg.current_app_key = some k
    · rw [if_pos hcur] at hk'
      have hmemf : k' ∈ (dictKeys reg.app_configs).filter (fun x => x != k) :=
        head?_mem hk'
      have : k' ∈ dictKeys (dictDelete reg.app_configs k) := by
        rw [dictKeys_dictDelete]
        exact hmemf
      exact (dictGet_isSome_iff_mem _ _).mpr this
    · rw [if_neg hcur] at hk'
      have hne : k' ≠ k := by
        intro hcontr
        subst hcontr
        exact hcur hk'
      show (dictGet (dictDelete reg.app_configs k) k').isSome = true
      rw [dictGet_dictDelete_ne _ _ _ hne]
      exact h k' hk'

theorem invariant_setCurrent (reg : Registry) (k : String)
    (h : regInvariant reg) : regInvariant (set_current_app reg k).2 := by
  unfold set_current_app
  by_cases hp : (dictGet reg.app_configs k).isSome = true
  · rw [if_pos hp]
    intro k' hk'
    simp only at hk'
    injection hk' with hkk
    subst hkk
    exact hp
  · rw [if_neg hp]
    exact h

theorem invariant_applyOp (reg : Registry) (op : RegOp)
    (h : regInvariant reg) : regInvariant (applyOp reg op) := by
  cases op with
  | add k a p n => exact invariant_add reg k a p n h
  | update k a p n => exact invariant_update reg k a p n h
  | remove k => exact invariant_remove reg k h
  | setCurrent k => exact invariant_setCurrent reg k h

/-- Claim C2: for every registry state and key `X` already present, a second
`add` with the same key fails with the duplicate-key error and the registry
state (profiles mapping and current key) is unchanged by the failed call.
(The nonemptiness hypotheses reflect the tool's prior parameter check, which
fires first; a present key is itself nonempty in every reachable state.) -/
theorem add_app_duplicate_unchanged (reg : Registry) (key app_id api_key : String)
    (name : Option String)
    (hk : key ≠ "") (ha : app_id ≠ "") (hp : api_key ≠ "")
    (hdup : (dictGet reg.app_configs key).isSome = true) :
    add_app reg key app_id api_key name = (addDuplicateKeyMsg key, reg) := by
  unfold add_app
  simp [hk, ha, hp, hdup]

/-- Witness for C2: a duplicate `add` on a concrete one-profile registry. -/
theorem add_app_duplicate_unchanged_witness :
    add_app ⟨[("acme", ⟨"app-1", "key-1", "Acme"⟩)], some "acme"⟩ "acme" "app-2" "key-2" none =
      (addDuplicateKeyMsg "acme", ⟨[("acme", ⟨"app-1", "key-1", "Acme"⟩)], some "acme"⟩) :=
  add_app_duplicate_unchanged _ "acme" "app-2" "key-2" none
    (by decide) (by decide) (by decide) (by decide)

/-- Claim C3: over every sequence of add/update/remove/setCurrent operations
from a state satisfying the invariant, `current_app_key` is always unset or a
present key; `set_current_app` on an absent key returns `false` and leaves the
state unchanged; removing a key never leaves it as the current key (the
current key is reassigned or cleared). -/
theorem registry_invariant_over_sequences :
    (∀ (reg : Registry) (ops : List RegOp), regInvariant reg →
       regInvariant (applyOps reg ops)) ∧
    (∀ (reg : Registry) (key : String), (dictGet reg.app_configs key).isSome = false →
       set_current_app reg key = (false, reg)) ∧
    (∀ (reg : Registry) (key : String), regInvariant reg →
       (remove_app reg key).2.current_app_key ≠ some key) := by
  refine ⟨?_, ?_, ?_⟩
  · intro reg ops
    induction ops generalizing reg with
    | nil => exact fun h => h
    | cons op rest ih =>
      intro h
      exact ih (applyOp reg op) (invariant_applyOp reg op h)
  · intro reg key h
    unfold set_current_app
    rw [if_neg (by simp [h])]
  · intro reg key hinv
    unfold remove_app
    by_cases habs : (dictGet reg.app_configs key).isNone = true
    · rw [if_pos habs]
      intro hc
      have := hinv key hc
      rw [Option.isNone_iff_eq_none] at habs
      rw [habs] at this
      simp at this
    · rw [if_neg habs]
      show (if reg.current_app_key = some key then
          ((dictKeys reg.app_configs).filter (fun x => x != key)).head?
        else reg.current_app_key) ≠ some key
      by_cases hcur : reg.current_app_key = some key
      · rw [if_pos hcur]
        intro hc
        have hmem : key ∈ (dictKeys reg.app_configs).filter (fun x => x != key) :=
          head?_mem hc
        have := (List.mem_filter.mp hmem).2
        simp at this
      · rw [if_neg hcur]
        exact hcur

/-- Witness for C3: switching to an absent key on a concrete registry fails
and changes nothing. -/
theorem registry_invariant_over_sequences_witness :
    set_current_app ⟨[("acme", ⟨"app-1", "key-1", "Acme"⟩)], some "acme"⟩ "ghost" =
      (false, ⟨[("acme", ⟨"app-1", "key-1", "Acme"⟩)], some "acme"⟩) :=
  registry_invariant_over_sequences.2.1 _ "ghost" (by decide)

/-- Claim C8: `remove` of an absent key returns `false` and leaves the
registry unchanged; removing the current profile with at least two profiles
present leaves the current key set to one of the other remaining keys;
removing the last remaining profile clears the current key.  (The `Nodup`
hypothesis states that the association list models a Python dict, whose keys
are distinct; the invariant hypothesis of the last part excludes dangling
current keys, impossible in reachable states.) -/
theorem remove_app_behavior :
    (∀ (reg : Registry) (key : String), (dictGet reg.app_configs key).isSome = false →
       remove_app reg key = (false, reg)) ∧
    (∀ (reg : Registry) (key : String),
       (dictKeys reg.app_configs).Nodup →
       reg.current_app_key = some key →
       (dictGet reg.app_configs key).isSome = true →
       2 ≤ reg.app_configs.length →
       ∃ c, (remove_app reg key).2.current_app_key = some c ∧ c ≠ key ∧
         (dictGet (remove_app reg key).2.app_configs c).isSome = true) ∧
    (∀ (reg : Registry) (key : String),
       regInvariant reg →
       (dictGet reg.app_configs key).isSome = true →
       reg.app_configs.length = 1 →
       (remove_app reg key).2.current_app_key = none) := by
  refine ⟨?_, ?_, ?_⟩
  · intro reg key h
    unfold remove_app
    have hn : (dictGet reg.app_configs key).isNone = true := by
      cases hval : dictGet reg.app_configs key with
      | none => rfl
      | some v => rw [hval] at h; simp at h
    rw [if_pos hn]
  · intro reg key hnodup hcur hpres hlen
    have hne : ((dictKeys reg.app_configs).filter (fun x => x != key)) ≠ [] := by
      intro hnil
      have hall : ∀ x ∈ dictKeys reg.app_configs, x = key := by
        intro x hx
        have := List.filter_eq_nil_iff.mp hnil x hx
        simpa using this
      match hmatch : reg.app_configs with
      | [] => rw [hmatch] at hlen; simp at hlen
      | [kv] => rw [hmatch] at hlen; simp at hlen
      | kv1 :: kv2 :: rest =>
        rw [hmatch] at hnodup hall
        have h1 : kv1.1 = key := hall kv1.1 (by simp [dictKeys])
        have h2 : kv2.1 = key := hall kv2.1 (by simp [dictKeys])
        simp [dictKeys, List.nodup_cons] at hnodup
        exact hnodup.1.1 (h1.trans h2.symm)
    obtain ⟨c, t, hct⟩ : ∃ c t, ((dictKeys reg.app_configs).filter (fun x => x != key)) = c :: t := by
      match hm : ((dictKeys reg.app_configs).filter (fun x => x != key)) with
      | [] => exact absurd hm hne
      | c :: t => exact ⟨c, t, rfl⟩
    have hcmem : c ∈ (dictKeys reg.app_configs).filter (fun x => x != key) := by
      rw [hct]; exact List.mem_cons_self c t
    have hcne : c ≠ key := by
      have := (List.mem_filter.mp hcmem).2
      simpa using this
    have hn : ¬ (dictGet reg.app_configs key).isNone = true := by
      cases hval : dictGet reg.app_configs key with
      | none => rw [hval] at hpres; simp at hpres
      | some v => simp
    refine ⟨c, ?_, hcne, ?_⟩
    · unfold remove_app
      rw [if_neg hn]
      show (if reg.current_app_key = some key then
          ((dictKeys reg.app_configs).filter (fun x => x != key)).head?
        else reg.current_app_key) = some c
      rw [if_pos hcur, hct]
      rfl
    · unfold remove_app
      rw [if_neg hn]
      show (dictGet (dictDelete reg.app_configs key) c).isSome = true
      have : c ∈ dictKeys (dictDelete reg.app_configs key) := by
        rw [dictKeys_dictDelete]
        exact hcmem
      exact (dictGet_isSome_iff_mem _ _).mpr this
  · intro reg key hinv hpres hlen
    have hn : ¬ (dictGet reg.app_configs key).isNone = true := by
      cases hval : dictGet reg.app_configs key with
      | none => rw [hval] at hpres; simp at hpres
      | some v => simp
    unfold remove_app
    rw [if_neg hn]
    show (if reg.current_app_key = some key then
        ((dictKeys reg.app_configs).filter (fun x => x != key)).head?
      else reg.current_app_key) = none
    obtain ⟨k0, v0, hm⟩ : ∃ k0 v0, reg.app_configs = [(k0, v0)] := by
      match hmm : reg.app_configs with
      | [] => rw [hmm] at hlen; simp at hlen
      | [(k0, v0)] => exact ⟨k0, v0, rfl⟩
      | kv1 :: kv2 :: rest => rw [hmm] at hlen; simp at hlen
    have hk0 : k0 = key := by
      rw [hm] at hpres
      by_cases hx : k0 = key
      · exact hx
      · rw [show dictGet [(k0, v0)] key = none by simp [dictGet, hx]] at hpres
        simp at hpres
    subst hk0
    by_cases hcur : reg.current_app_key = some k0
    · rw [if_pos hcur, hm]
      simp [dictKeys, List.filter]
    · rw [if_neg hcur]
      cases hc : reg.current_app_key with
      | none => rfl
      | some c =>
        have hpc := hinv c hc
        rw [hm] at hpc
        have hck : c = k0 := by
          by_cases hx : k0 = c
          · exact hx.symm
          · rw [show dictGet [(k0, v0)] c = none by simp [dictGet, hx]] at hpc
            simp at hpc
        subst hck
        exact absurd hc hcur

/-- Witness for C8: removing the only (current) profile of a concrete
registry clears the current key. -/
theorem remove_app_behavior_witness :
    (remove_app ⟨[("acme", ⟨"app-1", "key-1", "Acme"⟩)], some "acme"⟩ "acme").2.current_app_key
      = none :=
  remove_app_behavior.2.2 _ "acme"
    (by intro k hk; injection hk with h; subst h; decide) (by decide) (by decide)

/-! ### The dispatcher: `make_onesignal_request` up to the transport boundary -/

/-- The base64 alphabet character at index `n`. -/
def b64Char (n : Nat) : Char :=
  "ABCDEFGHIJKLMNOPQRSTUVWXYZabcdefghijklmnopqrstuvwxyz0123456789+/".toList.getD n 'A'

/-- RFC 4648 base64 encoding of a byte list, three bytes per chunk with `=`
padding (semantics of Python `base64.b64encode`). -/
def b64Chunks : List Nat → List Char
  | [] => []
  | [b0] =>
      [b64Char (b0 / 4), b64Char (b0 % 4 * 16), '=', '=']
  | [b0, b1] =>
      [b64Char (b0 / 4), b64Char (b0 % 4 * 16 + b1 / 16), b64Char (b1 % 16 * 4), '=']
  | b0 :: b1 :: b2 :: rest =>
      b64Char (b0 / 4) :: b64Char (b0 % 4 * 16 + b1 / 16) ::
      b64Char (b1 % 16 * 4 + b2 / 64) :: b64Char (b2 % 64) :: b64Chunks rest

/-- UTF-8 encoding of one character as byte values (the semantics of Python
`str.encode()` / `String.utf8EncodeChar`, written kernel-reducibly). -/
def utf8Bytes (c : Char) : List Nat :=
  let n := c.toNat
  if n < 128 then [n]
  else if n < 2048 then [192 + n / 64, 128 + n % 64]
  else if n < 65536 then [224 + n / 4096, 128 + n / 64 % 64, 128 + n % 64]
  else [240 + n / 262144, 128 + n / 4096 % 64, 128 + n / 64 % 64, 128 + n % 64]

/-- The UTF-8 bytes of a string. -/
def strBytes (s : String) : List Nat := (s.toList.map utf8Bytes).flatten

/-- Python `base64.b64encode(s.encode()).decode()`. -/
def base64Encode (s : String) : String :=
  String.mk (b64Chunks (strBytes s))

/-- The authorization header value built by `make_onesignal_request` for a
given key (both the org-key and the app-key branches use this shape):
`os_v2_`-prefixed keys use the `Key` scheme, others base64-encoded Basic
auth of `key:`. -/
def auth_header_value (api_key : String) : String :=
  if strStartsWith api_key "os_v2_" then "Key " ++ api_key
  else "Basic " ++ base64Encode (api_key ++ ":")

/-- `ONESIGNAL_API_URL`. -/
def ONESIGNAL_API_URL : String := "https://api.onesignal.com/api/v1"

/-- App-profile resolution in `make_onesignal_request` (lines 196-199):
an explicit truthy `app_key` that is present wins, else the current app if
truthy and present, else none. -/
def resolve_app_config (reg : Registry) (app_key : Option String) : Option AppConfig :=
  if truthyOptStr app_key ∧ (dictGet reg.app_configs (app_key.getD "")).isSome then
    dictGet reg.app_configs (app_key.getD "")
  else if truthyOptStr reg.current_app_key ∧
      (dictGet reg.app_configs (reg.current_app_key.getD "")).isSome then
    dictGet reg.app_configs (reg.current_app_key.getD "")
  else none

/-- The HTTP request assembled by `make_onesignal_request` and handed to the
`requests` library: only the arguments actually passed for the given method
are recorded (`params` only for GET, `json` body only for POST/PUT/PATCH). -/
structure OutboundRequest : Type where
  method : String
  url : String
  headers : List (String × String)
  params : Option (List (String × PyVal))
  jsonData : Option (List (String × PyVal))
deriving Repr

/-- Outcome of the pre-transport phase of `make_onesignal_request`:
either an error dictionary is returned before any HTTP call (`preflight msg`
stands for the returned `{"error": msg}`), or the assembled request is
issued. -/
inductive PrepResult : Type
  | preflight (msg : String)
  | send (req : OutboundRequest)
deriving Repr

/-- Pre-flight error string when no app profile resolves. -/
def noAppMsg : String :=
  "No app configuration available. Use set_current_app or specify app_key."

/-- Pre-flight error string when the organization key is unset. -/
def noOrgKeyMsg : String :=
  "Organization API Key not configured. Set the ONESIGNAL_ORG_API_KEY environment variable."

/-- Everything `make_onesignal_request` does before the HTTP call: header
assembly and merging, auth-scope resolution, credential selection, app_id
payload enrichment, and the method dispatch to the `requests` call (an
unsupported method returns an error dict without any call). -/
def make_onesignal_request_prepare
    (org_api_key : String) (reg : Registry) (endpoint : String) (method : String)
    (data : Option (List (String × PyVal))) (params : Option (List (String × PyVal)))
    (use_org_key : Option Bool) (app_key : Option String)
    (headers : Option (List (String × String))) : PrepResult :=
  let request_headers : List (String × String) :=
    [("Content-Type", "application/json"), ("Accept", "application/json")]
  let request_headers :=
    match headers with
    | some hs => hs.foldl (fun acc kv => dictSet acc kv.1 kv.2) request_headers
    | none => request_headers
  let useOrg : Bool :=
    match use_org_key with
    | some b => b
    | none => requires_org_api_key endpoint
  let url := ONESIGNAL_API_URL ++ "/" ++ endpoint
  if useOrg then
    if org_api_key = "" then .preflight noOrgKeyMsg
    else
      let request_headers := dictSet request_headers "Authorization" (auth_header_value org_api_key)
      assembleRequest endpoint method request_headers none data params url
  else
    match resolve_app_config reg app_key with
    | none => .preflight noAppMsg
    | some cfg =>
      let request_headers := dictSet request_headers "Authorization" (auth_header_value cfg.api_key)
      assembleRequest endpoint method request_headers (some cfg) data params url
where
  /-- Payload enrichment (per-app scope only) followed by the
  `requests.<method>` dispatch chain. -/
  assembleRequest (endpoint method : String) (request_headers : List (String × String))
      (app_config : Option AppConfig)
      (data : Option (List (String × PyVal))) (params : Option (List (String × PyVal)))
      (url : String) : PrepResult :=
    let params :=
      match app_config with
      | some cfg =>
        let ps := params.getD []
        some (if (dictGet ps "app_id").isNone ∧ ¬ strStartsWith endpoint "apps/" then
                dictSet ps "app_id" (.pstr cfg.app_id)
              else ps)
      | none => params
    let data :=
      match app_config, data with
      | some cfg, some d =>
        some (if (method = "POST" ∨ method = "PUT") ∧ (dictGet d "app_id").isNone ∧
                 ¬ strStartsWith endpoint "apps/" then
                dictSet d "app_id" (.pstr cfg.app_id)
              else d)
      | _, d => d
    if method = "GET" then .send ⟨method, url, request_headers, params, none⟩
    else if method = "POST" then .send ⟨method, url, request_headers, none, data⟩
    else if method = "PUT" then .send ⟨method, url, request_headers, none, data⟩
    else if method = "DELETE" then .send ⟨method, url, request_headers, none, none⟩
    else if method = "PATCH" then .send ⟨method, url, request_headers, none, data⟩
    else .preflight ("Unsupported HTTP method: " ++ method)

/-- Body of an upstream HTTP response: empty text, or text parsing to a JSON
value. -/
inductive RespBody : Type
  | empty
  | json (v : PyVal)
deriving Repr

/-- An upstream HTTP response as seen through the `requests` library. -/
structure HttpResponse : Type where
  status_code : Nat
  reason : String
  body : RespBody
deriving Repr

/-- The message of the `requests.exceptions.HTTPError` raised by
`Response.raise_for_status` (modelled from the requests library: client
errors for 4xx, server errors for 5xx). -/
def httpErrorStr (status : Nat) (reason url : String) : String :=
  if status < 500 then
    toString status ++ " Client Error: " ++ reason ++ " for url: " ++ url
  else
    toString status ++ " Server Error: " ++ reason ++ " for url: " ++ url

/-- The error-message extraction of `make_onesignal_request`'s HTTPError
handler (lines 268-289): start from `f"Error: {str(e)}"`, then, when the
body parses to a dict, try `errors` (truthy; list → first element, else the
value), `error`, `message`, else the response reason. -/
def extract_error_message (e_str reason : String) (body : RespBody) : String :=
  match body with
  | .empty => "Error: " ++ e_str
  | .json (.pdict error_data) =>
    let errors := (dictGet error_data "errors").getD (.plist [])
    if pyTruthy errors then
      match errors with
      | .plist xs => "Error: " ++ pyStrFmt (xs.headD (.pstr ""))
      | v => "Error: " ++ pyStrFmt v
    else
      match dictGet error_data "error" with
      | some v => "Error: " ++ pyStrFmt v
      | none =>
        match dictGet error_data "message" with
        | some v => "Error: " ++ pyStrFmt v
        | none => "Error: " ++ reason
  | .json _ => "Error: " ++ e_str

/-- The post-transport phase of `make_onesignal_request` (lines 258-302):
the 404 handling, `raise_for_status`, success parsing, and HTTPError
normalization with 401/403 auth-scope tagging.  Returns the dictionary value
the Python function returns. -/
def handle_response (endpoint : String) (use_org_key : Bool) (url : String)
    (resp : HttpResponse) : PyVal :=
  if resp.status_code = 404 then
    if strEndsWith endpoint "/templates" ∨ strContainsSub endpoint "templates" then
      .pdict [("templates", .plist []), ("message", .pstr "No templates found")]
    else
      .pdict [("error", .pstr "Resource not found"), ("status_code", .pint 404)]
  else if 400 ≤ resp.status_code ∧ resp.status_code < 600 then
    let e_str := httpErrorStr resp.status_code resp.reason url
    let error_message := extract_error_message e_str resp.reason resp.body
    let error_message :=
      if resp.status_code = 401 ∨ resp.status_code = 403 then
        let auth_type := if use_org_key then "Organization API Key" else "App REST API Key"
        "Authorization failed (" ++ auth_type ++ "). Status: " ++ toString resp.status_code ++
          ". Details: " ++ error_message ++ ". Endpoint: " ++ endpoint
      else error_message
    .pdict [("error", .pstr error_message), ("status_code", .pint resp.status_code)]
  else
    match resp.body with
    | .empty => .pdict []
    | .json v => v

/-! ### Claim-side notions and correspondence lemmas for string containment -/

/-- Split a character list at `/` (auxiliary for `pathSegments`). -/
def splitSegs : List Char → List Char → List String
  | acc, [] => [String.mk acc.reverse]
  | acc, x :: t =>
    if x = '/' then String.mk acc.reverse :: splitSegs [] t
    else splitSegs (x :: acc) t

/-- Modelled from the claim's words: the path segments of an endpoint string
(the pieces between `/` separators). -/
def pathSegments (s : String) : List String := splitSegs [] s.toList

theorem listIsPre_iff {α : Type} [DecidableEq α] (a b : List α) :
    listIsPre a b = true ↔ a <+: b := by
  induction a generalizing b with
  | nil => simp [listIsPre]
  | cons x as ih =>
    cases b with
    | nil => simp [listIsPre]
    | cons y bs =>
      by_cases hxy : x = y
      · subst hxy
        simp [listIsPre, List.cons_prefix_cons, ih]
      · simp [listIsPre, hxy, List.cons_prefix_cons]

theorem listIsSub_iff {α : Type} [DecidableEq α] (n h : List α) :
    listIsSub n h = true ↔ n <:+: h := by
  induction h with
  | nil =>
    simp only [listIsSub, List.isEmpty_iff]
    constructor
    · intro hn
      subst hn
      exact List.infix_rfl
    · intro hn
      exact List.sublist_nil.mp hn.sublist
  | cons x t ih =>
    simp only [listIsSub, Bool.or_eq_true, listIsPre_iff, ih, List.infix_cons_iff]

theorem strEndsWith_templates_contains (e : String)
    (h : strEndsWith e "/templates" = true) :
    strContainsSub e "templates" = true := by
  unfold strEndsWith at h
  rw [listIsPre_iff, List.reverse_prefix] at h
  have hsub : "templates".toList <:+: "/templates".toList := by
    rw [← listIsSub_iff]
    decide
  unfold strContainsSub
  rw [listIsSub_iff]
  exact hsub.trans h.isInfix

/-- Counterexample for C4: a 404 on the endpoint `abctemplates`, whose path
contains no segment `templates`, is nevertheless returned as the successful
empty template list (no `error` key), because the code tests substring
containment (`"templates" in endpoint`), not segment containment. -/
theorem templates404_segment_counterexample :
    (pathSegments "abctemplates").contains "templates" = false ∧
    handle_response "abctemplates" false "https://api.onesignal.com/api/v1/abctemplates"
        ⟨404, "Not Found", .empty⟩ =
      .pdict [("templates", .plist []), ("message", .pstr "No templates found")] ∧
    dictGet [(("templates" : String), PyVal.plist []),
             (("message" : String), PyVal.pstr "No templates found")] "error" = none := by
  refine ⟨by decide, rfl, rfl⟩

/-- Claim C4 (amended): a 404 on any endpoint containing `templates` as a
substring returns the successful empty template list; a 404 on any endpoint
not containing that substring returns the `Resource not found` error
dictionary. -/
theorem templates404_substring (endpoint url : String) (useOrg : Bool) (resp : HttpResponse)
    (h404 : resp.status_code = 404) :
    (strContainsSub endpoint "templates" = true →
       handle_response endpoint useOrg url resp =
         .pdict [("templates", .plist []), ("message", .pstr "No templates found")]) ∧
    (strContainsSub endpoint "templates" = false →
       handle_response endpoint useOrg url resp =
         .pdict [("error", .pstr "Resource not found"), ("status_code", .pint 404)]) := by
  constructor
  · intro hc
    unfold handle_response
    rw [if_pos h404, if_pos (by rw [hc]; simp)]
  · intro hc
    have hends : strEndsWith endpoint "/templates" = false := by
      cases hval : strEndsWith endpoint "/templates" with
      | false => rfl
      | true => rw [strEndsWith_templates_contains endpoint hval] at hc; exact hc
    unfold handle_response
    rw [if_pos h404, if_neg (by rw [hc, hends]; simp)]

/-- Witness for C4 (amended theorem): a 404 on the endpoint `templates` is the
successful empty template list. -/
theorem templates404_substring_witness :
    handle_response "templates" false "https://api.onesignal.com/api/v1/templates"
        ⟨404, "Not Found", .empty⟩ =
      .pdict [("templates", .plist []), ("message", .pstr "No templates found")] :=
  (templates404_substring "templates" "https://api.onesignal.com/api/v1/templates"
    false ⟨404, "Not Found", .empty⟩ rfl).1 (by decide)

/-- Counterexample for C6: a dispatch of `PUT` to `notifications` does not
fail with an unsupported-method error; it assembles and issues an HTTP
request (the Python code reaches `requests.put`). -/
theorem put_method_is_dispatched :
    make_onesignal_request_prepare "" ⟨[("acme", ⟨"app-1", "key-1", "Acme"⟩)], some "acme"⟩
        "notifications" "PUT" (some [("contents", .pstr "x")]) none none none none =
      .send ⟨"PUT", "https://api.onesignal.com/api/v1/notifications",
        [("Content-Type", "application/json"), ("Accept", "application/json"),
         ("Authorization", "Basic a2V5LTE6")], none,
        some [("contents", .pstr "x"), ("app_id", .pstr "app-1")]⟩ := rfl

/-- Claim C6 (amended): a dispatch to `notifications` with a method outside
GET/POST/PUT/DELETE/PATCH fails with the unsupported-method error and issues
no HTTP request (PUT itself is a supported method and proceeds to
transport). -/
theorem unsupported_method_preflight (method : String)
    (h1 : method ≠ "GET") (h2 : method ≠ "POST") (h3 : method ≠ "PUT")
    (h4 : method ≠ "DELETE") (h5 : method ≠ "PATCH") :
    make_onesignal_request_prepare "" ⟨[("acme", ⟨"app-1", "key-1", "Acme"⟩)], some "acme"⟩
        "notifications" method (some [("contents", .pstr "x")]) none none none none =
      .preflight ("Unsupported HTTP method: " ++ method) := by
  show make_onesignal_request_prepare.assembleRequest "notifications" method
      [("Content-Type", "application/json"), ("Accept", "application/json"),
       ("Authorization", "Basic a2V5LTE6")]
      (some ⟨"app-1", "key-1", "Acme"⟩) (some [("contents", .pstr "x")]) none
      "https://api.onesignal.com/api/v1/notifications" =
    .preflight ("Unsupported HTTP method: " ++ method)
  unfold make_onesignal_request_prepare.assembleRequest
  rw [if_neg h1, if_neg h2, if_neg h3, if_neg h4, if_neg h5]

/-- Witness for C6 (amended theorem): method `TRACE` fails pre-flight. -/
theorem unsupported_method_preflight_witness :
    make_onesignal_request_prepare "" ⟨[("acme", ⟨"app-1", "key-1", "Acme"⟩)], some "acme"⟩
        "notifications" "TRACE" (some [("contents", .pstr "x")]) none none none none =
      .preflight ("Unsupported HTTP method: " ++ "TRACE") :=
  unsupported_method_preflight "TRACE"
    (by decide) (by decide) (by decide) (by decide) (by decide)

/-- Claim C7: every dispatch resolving to organization scope — explicitly via
`use_org_key=True` or by endpoint classification — with the organization
credential unset (empty string) fails pre-flight with the
missing-organization-credential error; no HTTP request is assembled or
issued. -/
theorem missing_org_credential (reg : Registry) (endpoint method : String)
    (data params : Option (List (String × PyVal)))
    (use_org_key : Option Bool) (app_key : Option String)
    (headers : Option (List (String × String)))
    (h : use_org_key = some true ∨
         (use_org_key = none ∧ requires_org_api_key endpoint = true)) :
    make_onesignal_request_prepare "" reg endpoint method data params use_org_key app_key headers =
      .preflight noOrgKeyMsg := by
  rcases h with h | ⟨hn, hc⟩
  · subst h
    rfl
  · subst hn
    unfold make_onesignal_request_prepare
    rw [hc]
    rfl

/-- Witness for C7: a `GET apps` dispatch (organization scope by
classification) with the organization key unset. -/
theorem missing_org_credential_witness :
    make_onesignal_request_prepare "" ⟨[("acme", ⟨"app-1", "key-1", "Acme"⟩)], some "acme"⟩
        "apps" "GET" none none none none none = .preflight noOrgKeyMsg :=
  missing_org_credential _ "apps" "GET" none none none none none
    (Or.inr ⟨rfl, by decide⟩)

/-- Claim C5: from the empty registry, `add("acme","app-1","key-1","Acme")`
makes `acme` current; the subsequent per-app `POST notifications` dispatch
with body `{"contents": {"en": "hi"}}` injects `app_id: "app-1"` into the
body before transport and selects the Basic authorization header derived by
base64-encoding `key-1:`; a caller-supplied `app_id` is not overwritten. -/
theorem end_to_end_dispatch_scenario :
    (add_app ⟨[], none⟩ "acme" "app-1" "key-1" (some "Acme")).2 =
      ⟨[("acme", ⟨"app-1", "key-1", "Acme"⟩)], some "acme"⟩ ∧
    make_onesignal_request_prepare "" ⟨[("acme", ⟨"app-1", "key-1", "Acme"⟩)], some "acme"⟩
        "notifications" "POST" (some [("contents", .pdict [("en", .pstr "hi")])])
        none none none none =
      .send ⟨"POST", "https://api.onesignal.com/api/v1/notifications",
        [("Content-Type", "application/json"), ("Accept", "application/json"),
         ("Authorization", "Basic " ++ base64Encode "key-1:")], none,
        some [("contents", .pdict [("en", .pstr "hi")]), ("app_id", .pstr "app-1")]⟩ ∧
    base64Encode "key-1:" = "a2V5LTE6" ∧
    make_onesignal_request_prepare "" ⟨[("acme", ⟨"app-1", "key-1", "Acme"⟩)], some "acme"⟩
        "notifications" "POST" (some [("app_id", .pstr "custom")]) none none none none =
      .send ⟨"POST", "https://api.onesignal.com/api/v1/notifications",
        [("Content-Type", "application/json"), ("Accept", "application/json"),
         ("Authorization", "Basic " ++ base64Encode "key-1:")], none,
        some [("app_id", .pstr "custom")]⟩ :=
  ⟨rfl, rfl, rfl, rfl⟩

/-- Claim C10: in the monolithic dispatcher, a per-app dispatch whose explicit
app key is absent from the registry does not fail while a current profile
exists: it falls back to the current profile and authenticates with the
current profile's credentials; the no-app-configuration error arises only
when neither the explicit key nor the current key resolves to a profile. -/
theorem explicit_key_fallback :
    (∀ (reg : Registry) (k : String) (cfg : AppConfig),
       k ≠ "" →
       dictGet reg.app_configs k = none →
       truthyOptStr reg.current_app_key = true →
       dictGet reg.app_configs (reg.current_app_key.getD "") = some cfg →
       resolve_app_config reg (some k) = some cfg ∧
       ∀ org : String,
         make_onesignal_request_prepare org reg "notifications" "GET" none none
             (some false) (some k) none =
           .send ⟨"GET", "https://api.onesignal.com/api/v1/notifications",
             [("Content-Type", "application/json"), ("Accept", "application/json"),
              ("Authorization", auth_header_value cfg.api_key)],
             some [("app_id", .pstr cfg.app_id)], none⟩) ∧
    (∀ (reg : Registry) (app_key : Option String) (org : String)
       (data params : Option (List (String × PyVal))),
       resolve_app_config reg app_key = none →
       make_onesignal_request_prepare org reg "notifications" "GET" data params
           (some false) app_key none = .preflight noAppMsg) := by
  constructor
  · intro reg k cfg hk habs htr hcur
    have hres : resolve_app_config reg (some k) = some cfg := by
      unfold resolve_app_config
      rw [if_neg (by simp [habs]), if_pos (by simp [htr, hcur])]
      exact hcur
    refine ⟨hres, ?_⟩
    intro org
    unfold make_onesignal_request_prepare
    rw [hres]
    rfl
  · intro reg app_key org data params hres
    unfold make_onesignal_request_prepare
    rw [hres]
    rfl

/-- Witness for C10: explicit key `ghost` is absent, the dispatch falls back
to the current profile `acme` and authenticates with its key. -/
theorem explicit_key_fallback_witness :
    make_onesignal_request_prepare "" ⟨[("acme", ⟨"app-1", "key-1", "Acme"⟩)], some "acme"⟩
        "notifications" "GET" none none (some false) (some "ghost") none =
      .send ⟨"GET", "https://api.onesignal.com/api/v1/notifications",
        [("Content-Type", "application/json"), ("Accept", "application/json"),
         ("Authorization", auth_header_value "key-1")],
        some [("app_id", .pstr "app-1")], none⟩ :=
  (explicit_key_fallback.1 ⟨[("acme", ⟨"app-1", "key-1", "Acme"⟩)], some "acme"⟩
    "ghost" ⟨"app-1", "key-1", "Acme"⟩ (by decide) rfl rfl rfl).2 ""

/-! ### Claim C9: error normalization of non-2xx responses -/

/-- Modelled from the claim's words: the fallback message when the `errors`
field yields nothing — the `error` field, else the `message` field, else the
raw HTTP reason phrase (all rendered with the code's `Error: ` prefix). -/
def claim_error_fallback (error_data : List (String × PyVal)) (reason : String) : String :=
  match dictGet error_data "error" with
  | some v => "Error: " ++ pyStrFmt v
  | none =>
    match dictGet error_data "message" with
    | some v => "Error: " ++ pyStrFmt v
    | none => "Error: " ++ reason

/-- Modelled from the claim's words: the message extracted from a parsed
error dictionary in priority order — the `errors` field (first element when a
nonempty list, the string itself when a nonempty string; a falsy value is
treated as absent, per Python truthiness), else `error`, else `message`,
else the reason phrase. -/
def claim_error_message (error_data : List (String × PyVal)) (reason : String) : String :=
  match dictGet error_data "errors" with
  | some (.plist (x :: _)) => "Error: " ++ pyStrFmt x
  | some (.pstr s) =>
    if s = "" then claim_error_fallback error_data reason else "Error: " ++ s
  | _ => claim_error_fallback error_data reason

/-- The `errors` field of the claim's description is a list or a string; the
code additionally renders truthy values of unexpected shapes via `str()`,
which the claim does not describe. -/
def errorsWellShaped (error_data : List (String × PyVal)) : Prop :=
  match dictGet error_data "errors" with
  | some (.pint _) => False
  | some (.pdict _) => False
  | _ => True

/-- Counterexample for C9: a 404 (a non-2xx status) on a non-templates
endpoint bypasses the extraction chain entirely — the body's `errors` field
says `bad`, the claim's priority extraction yields `Error: bad`, but the code
returns the fixed message `Resource not found`. -/
theorem non2xx_extraction_404_counterexample :
    handle_response "players" false "https://api.onesignal.com/api/v1/players"
        ⟨404, "Not Found", .json (.pdict [("errors", .plist [.pstr "bad"])])⟩ =
      .pdict [("error", .pstr "Resource not found"), ("status_code", .pint 404)] ∧
    claim_error_message [("errors", .plist [.pstr "bad"])] "Not Found" = "Error: bad" ∧
    ("Resource not found" : String) ≠ "Error: bad" :=
  ⟨rfl, rfl, by decide⟩

/-- Claim C9 (amended): a 4xx/5xx upstream response *other than 404* (404 is
handled separately: templates endpoints yield an empty success, others the
fixed `Resource not found` error) is converted to an error dictionary
carrying the raw status code and a message extracted in the claim's priority
order from the parsed error dictionary; a 401 or 403 status additionally tags
the message with the credential scope used and the endpoint. -/
theorem non2xx_error_normalization (status : Nat) (reason endpoint url : String)
    (useOrg : Bool) (error_data : List (String × PyVal))
    (h1 : 400 ≤ status) (h2 : status < 600) (h3 : status ≠ 404)
    (hw : errorsWellShaped error_data) :
    handle_response endpoint useOrg url ⟨status, reason, .json (.pdict error_data)⟩ =
      .pdict [("error", .pstr (
        if status = 401 ∨ status = 403 then
          "Authorization failed (" ++
            (if useOrg then "Organization API Key" else "App REST API Key") ++
            "). Status: " ++ toString status ++ ". Details: " ++
            claim_error_message error_data reason ++ ". Endpoint: " ++ endpoint
        else claim_error_message error_data reason)),
        ("status_code", .pint status)] := by
  have hext : extract_error_message (httpErrorStr status reason url) reason
      (.json (.pdict error_data)) = claim_error_message error_data reason := by
    unfold errorsWellShaped at hw
    unfold extract_error_message claim_error_message
    cases hval : dictGet error_data "errors" with
    | none => simp [hval, pyTruthy, claim_error_fallback]
    | some v =>
      rw [hval] at hw
      cases v with
      | pstr s =>
        by_cases hs : s = ""
        · subst hs
          simp [hval, pyTruthy, claim_error_fallback]
        · simp [hval, pyTruthy, hs, pyStrFmt]
      | pint n => exact absurd hw (by simp)
      | plist xs =>
        cases xs with
        | nil => simp [hval, pyTruthy, claim_error_fallback]
        | cons x t => simp [hval, pyTruthy]
      | pdict kvs => exact absurd hw (by simp)
  unfold handle_response
  rw [if_neg (by simpa using h3), if_pos ⟨h1, h2⟩]
  simp only [hext]

/-- Witness for C9 (amended theorem): a 400 response whose body carries
`errors: ["bad"]` yields the extracted message. -/
theorem non2xx_error_normalization_witness :
    handle_response "players" false "https://api.onesignal.com/api/v1/players"
        ⟨400, "Bad Request", .json (.pdict [("errors", .plist [.pstr "bad"])])⟩ =
      .pdict [("error", .pstr "Error: bad"), ("status_code", .pint 400)] :=
  (non2xx_error_normalization 400 "Bad Request" "players"
    "https://api.onesignal.com/api/v1/players" false [("errors", .plist [.pstr "bad"])]
    (by decide) (by decide) (by decide) trivial).trans rfl

end OneSignal
